import Mathlib

/-!
# Verification of the diary mood-classification pipeline (Dandi)

Shallow embedding of `DiariesService` (backend `diaries.service.ts`):
the markup-stripping step, the chunk-splitting loop in `sumMoodAnalysis`,
the score aggregation, the max-reduction and threshold switch in
`judgeOverallMood`, the summary retrieval in `getSummary`/`saveDiary`,
and the field-update logic of `updateDiary`.

JavaScript numbers (sentiment confidence scores and their sums and
quotients) are modelled as rationals `ℚ`; JavaScript strings as
`List Char`; a possibly-`undefined` value as `Option`.
-/

namespace Dandi

/-- The `MoodType` enum of `diaries.constant`: the three sentiment
categories, in the insertion order of the `moodStatistics` object literal. -/
inductive MoodType where
  | POSITIVE
  | NEGATIVE
  | NEUTRAL
deriving DecidableEq, Repr

/-- The `MoodDegree` enum of `diaries.constant`: the five classification
outputs. -/
inductive MoodDegree where
  | SO_BAD
  | BAD
  | SO_SO
  | GOOD
  | SO_GOOD
deriving DecidableEq, Repr

/-- A sentiment-analysis result for one chunk: the
`jsonResponse.document.confidence` object, one score per category
(service contract: all three keys present). -/
structure SentimentScores where
  positive : ℚ
  negative : ℚ
  neutral : ℚ
deriving DecidableEq, Repr

/-- The initial `moodStatistics` object: all three categories zero. -/
def zeroScores : SentimentScores := ⟨0, 0, 0⟩

/-- The accumulation step of `sumMoodAnalysis`:
`Object.keys(analysis).forEach((key) => { moodStatistics[key] += analysis[key] })`,
adding each category of one analysis result into the running sums. -/
def addScores (acc analysis : SentimentScores) : SentimentScores :=
  ⟨acc.positive + analysis.positive,
   acc.negative + analysis.negative,
   acc.neutral + analysis.neutral⟩

/-! ## Markup stripping

`fullContent.replace(/<img[^>]*>/g, '')`: every occurrence of `<img`
followed by a (possibly empty) run of non-`>` characters and a closing
`>` is removed; the scan is left-to-right and resumes after each removed
match. -/

/-- Helper for one regex match: after the literal `<img`, `[^>]*>` consumes
everything up to and including the next `>`. Returns the remainder of the
string after that `>`, or `none` when no `>` follows (no match). -/
def dropThroughGt : List Char → Option (List Char)
  | [] => none
  | c :: rest => if c = '>' then some rest else dropThroughGt rest

theorem dropThroughGt_length_le :
    ∀ (l r : List Char), dropThroughGt l = some r → r.length ≤ l.length - 1 := by
  intro l
  induction l with
  | nil => intro r h; simp [dropThroughGt] at h
  | cons c rest ih =>
    intro r h
    by_cases hc : c = '>'
    · simp [dropThroughGt, hc] at h
      simp [← h]
    · simp [dropThroughGt, hc] at h
      have := ih r h
      simp
      omega

/-- One left-to-right scan step per unit of fuel: at each position where
the string starts with `<img` and a later `>` exists, the whole
`<img ... >` match is dropped and the scan resumes after it; otherwise
the current character is kept. Every step consumes at least one
character (`dropThroughGt_length_le`), so fuel equal to the input length
always suffices and the fuel-exhausted branch is unreachable. -/
def stripImgFuel : Nat → List Char → List Char
  | 0, l => l
  | fuel + 1, l =>
    match l with
    | [] => []
    | c :: rest =>
      if c = '<' ∧ rest.take 3 = ['i', 'm', 'g'] then
        match dropThroughGt (rest.drop 3) with
        | some rest2 => stripImgFuel fuel rest2
        | none => c :: stripImgFuel fuel rest
      else c :: stripImgFuel fuel rest

/-- Embeds `fullContent.replace(/<img[^>]*>/g, \x27\x27)`, the markup-stripping step. -/
def stripImg (l : List Char) : List Char := stripImgFuel l.length l

/-! ## Chunk splitting

The loop of `sumMoodAnalysis`:

```js
const numberOfChunk = Math.floor(plainContent.length / 1000) + 1;
for (let i = 0; i < numberOfChunk; i++) {
  const start = i * 1000;
  const end = i < numberOfChunk - 1 ? start + 1000 : start + (plainContent.length % 1000);
  if (start === end) { break; }
  ... plainContent.slice(start, end) ...
}
```

`chunksAux s total fuel i` produces the list of slices the loop submits
for analysis, from iteration `i` on; `fuel` bounds the remaining
iterations (the caller passes `fuel = total`, enough for the whole loop,
so the loop-guard `i < total` is what actually stops the recursion). -/

def chunksAux (s : List Char) (total : Nat) : Nat → Nat → List (List Char)
  | 0, _ => []
  | fuel + 1, i =>
    if i < total then
      let start := i * 1000
      let e := if i < total - 1 then start + 1000 else start + s.length % 1000
      if start = e then []
      else (s.drop start).take (e - start) :: chunksAux s total fuel (i + 1)
    else []

/-- The ordered sequence of text chunks the `sumMoodAnalysis` loop slices
out of the (already markup-stripped) content and submits for analysis. -/
def chunks (s : List Char) : List (List Char) :=
  chunksAux s (s.length / 1000 + 1) (s.length / 1000 + 1) 0

/-! ## Score aggregation (`sumMoodAnalysis`)

The same loop, with the per-chunk `analyzeMood` call (an external HTTP
collaborator, modelled as a function parameter `analyze`) and the
accumulation into `moodStatistics` made explicit. -/

/-- The accumulation performed by the `sumMoodAnalysis` loop from
iteration `i` on, with running statistics `acc`. -/
def sumMoodAux (analyze : List Char → SentimentScores) (s : List Char) (total : Nat) :
    Nat → Nat → SentimentScores → SentimentScores
  | 0, _, acc => acc
  | fuel + 1, i, acc =>
    if i < total then
      let start := i * 1000
      let e := if i < total - 1 then start + 1000 else start + s.length % 1000
      if start = e then acc
      else
        sumMoodAux analyze s total fuel (i + 1)
          (addScores acc (analyze ((s.drop start).take (e - start))))
    else acc

/-- Embeds `sumMoodAnalysis(fullContent)`: strips image markup, sets
`numberOfChunk = Math.floor(plainContent.length / 1000) + 1`, runs the
analysis loop, and returns the pair `[moodStatistics, numberOfChunk]`.
Note the second component is `numberOfChunk`, not the number of chunks
the loop actually analyzed. -/
def sumMoodAnalysis (analyze : List Char → SentimentScores) (fullContent : List Char) :
    SentimentScores × Nat :=
  let plainContent := stripImg fullContent
  let numberOfChunk := plainContent.length / 1000 + 1
  (sumMoodAux analyze plainContent numberOfChunk numberOfChunk 0 zeroScores, numberOfChunk)

/-! ## Mood classification (`judgeOverallMood`) -/

/-- The max-reduction
`Object.entries(statistics).reduce((max, cur) => cur[1] > max[1] ? cur : max)`:
the entries are visited in insertion order POSITIVE, NEGATIVE, NEUTRAL;
the accumulator starts at the first entry, and a later entry replaces it
only when strictly greater. -/
def maxEntry (statistics : SentimentScores) : MoodType × ℚ :=
  let m1 : MoodType × ℚ := (MoodType.POSITIVE, statistics.positive)
  let m2 : MoodType × ℚ :=
    if statistics.negative > m1.2 then (MoodType.NEGATIVE, statistics.negative) else m1
  if statistics.neutral > m2.2 then (MoodType.NEUTRAL, statistics.neutral) else m2

/-- The tail of `judgeOverallMood`, applied to the pair returned by
`sumMoodAnalysis`: `figure = sum / totalNumber` followed by the
`switch (type)` over the winning category with threshold 50. -/
def judgeFromStats (statistics : SentimentScores) (totalNumber : Nat) : MoodDegree :=
  let m := maxEntry statistics
  let figure : ℚ := m.2 / (totalNumber : ℚ)
  match m.1 with
  | MoodType.POSITIVE => if figure > 50 then MoodDegree.SO_GOOD else MoodDegree.GOOD
  | MoodType.NEGATIVE => if figure > 50 then MoodDegree.SO_BAD else MoodDegree.BAD
  | MoodType.NEUTRAL => MoodDegree.SO_SO

/-- Embeds `judgeOverallMood(fullContent)`: aggregate the per-chunk analyses,
then reduce to a `MoodDegree`. -/
def judgeOverallMood (analyze : List Char → SentimentScores) (fullContent : List Char) :
    MoodDegree :=
  let r := sumMoodAnalysis analyze fullContent
  judgeFromStats r.1 r.2

/-! ## Summary retrieval (`getSummary` / `saveDiary`)

`getSummary` truncates the content to 2000 characters, POSTs it to the
summarization endpoint, and returns `body.summary` from the parsed JSON —
without inspecting the HTTP status and without checking that the
`summary` field is present. The network interaction is modelled by its
outcome: either the `fetch`/`response.json()` promise rejects (an
exception that propagates to the caller), or a parsed JSON body is
obtained, whose `summary` field may be absent (`undefined`, i.e.
`none`). -/

/-- The parsed JSON body of the summarization response; `summary = none`
models a body with the `summary` field missing. -/
structure SummaryBody where
  summary : Option (List Char)
deriving DecidableEq, Repr

/-- The outcome of the `fetch` + `response.json()` in `getSummary`:
`reject` when either promise rejects (network failure, non-JSON body);
`resolved ok body` when a JSON body was parsed — `ok` is the HTTP
success flag, which the code never reads. -/
inductive FetchOutcome where
  | reject
  | resolved (ok : Bool) (body : SummaryBody)
deriving DecidableEq, Repr

/-- Embeds `getSummary(title, content)`: on a rejected fetch the exception
propagates (`Except.error`); otherwise the returned value is
`body.summary`, whether or not the field is present and whatever the
HTTP status was. -/
def getSummary (outcome : FetchOutcome) : Except Unit (Option (List Char)) :=
  match outcome with
  | FetchOutcome.reject => Except.error ()
  | FetchOutcome.resolved _ body => Except.ok body.summary

/-- The fields of a saved diary that `saveDiary` derives: `diary.summary`
is whatever `getSummary` returned (possibly `undefined`), `diary.mood`
the classification result. -/
structure DerivedFields where
  summary : Option (List Char)
  mood : MoodDegree
deriving DecidableEq, Repr

/-- The derived-field computation inside `saveDiary`:
`diary.summary = await this.getSummary(...)` followed by
`diary.mood = await this.judgeOverallMood(...)`; a rejection of
`getSummary` propagates and nothing is saved, otherwise the diary is
saved with the returned (possibly absent) summary. -/
def saveDiaryDerived (outcome : FetchOutcome) (analyze : List Char → SentimentScores)
    (content : List Char) : Except Unit DerivedFields :=
  match getSummary outcome with
  | Except.error e => Except.error e
  | Except.ok s => Except.ok ⟨s, judgeOverallMood analyze content⟩

/-! ## Diary update (`updateDiary`)

```js
existingDiary.tags = await this.tagsService.mapTagNameToTagType(updateDiaryDto.tagNames);
Object.keys(updateDiaryDto).forEach((key) => {
  if (updateDiaryDto[key]) { existingDiary[key] = updateDiaryDto[key]; }
});
if (updateDiaryDto.content) {
  existingDiary.summary = await this.getSummary(existingDiary.title, updateDiaryDto.content);
  existingDiary.mood = await this.judgeOverallMood(updateDiaryDto.content);
}
```

The DTO is modelled with the updatable scalar fields evident from the
service (`title`, `content`, `emotion`, `status`) plus `tagNames`; a
missing field is `none`, and a field is truthy when present and a
non-empty string. `mapTagNameToTagType` (TagsService) and the two
external calls are opaque collaborators passed as parameters. The
`forEach` assignment of the `tagNames` key itself writes a property that
is not a column of the diary entity, so it has no counterpart here. -/

/-- The diary entity fields relevant to `updateDiary`. -/
structure Diary where
  title : List Char
  content : List Char
  emotion : List Char
  status : List Char
  summary : Option (List Char)
  mood : MoodDegree
  tags : List (List Char)
deriving DecidableEq, Repr

/-- The update DTO; `none` models an absent field. -/
structure UpdateDiaryDto where
  title : Option (List Char)
  content : Option (List Char)
  emotion : Option (List Char)
  status : Option (List Char)
  tagNames : Option (List (List Char))
deriving DecidableEq, Repr

/-- JavaScript truthiness of a possibly-absent string field:
`undefined`, `null` and the empty string are falsy. -/
def truthy : Option (List Char) → Bool
  | none => false
  | some s => !s.isEmpty

/-- Embeds `updateDiary`: unconditional recomputation of `tags` from
`dto.tagNames`, the truthy-only overwrite loop over the DTO's fields,
then — only when `dto.content` is truthy — recomputation of `summary`
(from the possibly-updated title) and `mood` from the new content. -/
def updateDiary (mapTagNameToTagType : Option (List (List Char)) → List (List Char))
    (summarize : List Char → List Char → Option (List Char))
    (judge : List Char → MoodDegree)
    (existingDiary : Diary) (dto : UpdateDiaryDto) : Diary :=
  let d0 := { existingDiary with tags := mapTagNameToTagType dto.tagNames }
  let d1 := if truthy dto.title then { d0 with title := dto.title.getD [] } else d0
  let d2 := if truthy dto.content then { d1 with content := dto.content.getD [] } else d1
  let d3 := if truthy dto.emotion then { d2 with emotion := dto.emotion.getD [] } else d2
  let d4 := if truthy dto.status then { d3 with status := dto.status.getD [] } else d3
  if truthy dto.content then
    { d4 with
      summary := summarize d4.title (dto.content.getD [])
      mood := judge (dto.content.getD []) }
  else d4

/-! ## Loop invariants of the chunk-splitting / aggregation loop -/

/-- From iteration `i` on (with enough fuel for the remaining
iterations), the slices the loop produces concatenate to the suffix of
the content from position `i * 1000`. -/
theorem chunksAux_flatten (s : List Char) :
    ∀ (fuel i : Nat), s.length / 1000 + 1 ≤ i + fuel →
      (chunksAux s (s.length / 1000 + 1) fuel i).flatten = s.drop (i * 1000) := by
  intro fuel
  induction fuel with
  | zero =>
    intro i h
    have hm := Nat.div_add_mod s.length 1000
    have hlt : s.length % 1000 < 1000 := Nat.mod_lt _ (by norm_num)
    simp only [chunksAux, List.flatten_nil]
    rw [Eq.comm, List.drop_eq_nil_of_le]
    omega
  | succ fuel ih =>
    intro i h
    have hm := Nat.div_add_mod s.length 1000
    have hlt : s.length % 1000 < 1000 := Nat.mod_lt _ (by norm_num)
    by_cases h1 : i < s.length / 1000 + 1
    · by_cases h2 : i < s.length / 1000 + 1 - 1
      · have hne : ¬ (i * 1000 = i * 1000 + 1000) := by omega
        simp only [chunksAux, if_pos h1, if_pos h2, if_neg hne, List.flatten_cons]
        rw [ih (i + 1) (by omega)]
        have hdd : s.drop ((i + 1) * 1000) = (s.drop (i * 1000)).drop 1000 := by
          rw [List.drop_drop]
          ring_nf
        have hts : i * 1000 + 1000 - i * 1000 = 1000 := by omega
        rw [hdd, hts, List.take_append_drop]
      · by_cases h3 : i * 1000 = i * 1000 + s.length % 1000
        · simp only [chunksAux, if_pos h1, if_neg h2, if_pos h3, List.flatten_nil]
          rw [Eq.comm, List.drop_eq_nil_of_le]
          omega
        · simp only [chunksAux, if_pos h1, if_neg h2, if_neg h3, List.flatten_cons]
          rw [ih (i + 1) (by omega)]
          have hz : s.drop ((i + 1) * 1000) = [] := by
            rw [List.drop_eq_nil_of_le]
            omega
          have hts : i * 1000 + s.length % 1000 - i * 1000 = s.length % 1000 := by omega
          rw [hz, List.append_nil, hts, List.take_of_length_le]
          simp only [List.length_drop]
          omega
    · simp only [chunksAux, if_neg h1, List.flatten_nil]
      rw [Eq.comm, List.drop_eq_nil_of_le]
      omega

/-- From iteration `i` on, the number of slices the loop produces is the
total number of analyzed chunks minus `i`: `n / 1000` chunks when
`n % 1000 = 0`, `n / 1000 + 1` chunks otherwise. -/
theorem chunksAux_length (s : List Char) :
    ∀ (fuel i : Nat), s.length / 1000 + 1 ≤ i + fuel →
      (chunksAux s (s.length / 1000 + 1) fuel i).length =
        (if s.length % 1000 = 0 then s.length / 1000 else s.length / 1000 + 1) - i := by
  intro fuel
  induction fuel with
  | zero =>
    intro i h
    simp only [chunksAux, List.length_nil]
    split <;> omega
  | succ fuel ih =>
    intro i h
    by_cases h1 : i < s.length / 1000 + 1
    · by_cases h2 : i < s.length / 1000 + 1 - 1
      · have hne : ¬ (i * 1000 = i * 1000 + 1000) := by omega
        simp only [chunksAux, if_pos h1, if_pos h2, if_neg hne, List.length_cons]
        rw [ih (i + 1) (by omega)]
        split <;> omega
      · by_cases h3 : i * 1000 = i * 1000 + s.length % 1000
        · simp only [chunksAux, if_pos h1, if_neg h2, if_pos h3, List.length_nil]
          split <;> omega
        · simp only [chunksAux, if_pos h1, if_neg h2, if_neg h3, List.length_cons]
          rw [ih (i + 1) (by omega)]
          split <;> omega
    · simp only [chunksAux, if_neg h1, List.length_nil]
      split <;> omega

/-- Every slice the loop produces is non-empty and at most 1000
characters long. -/
theorem chunksAux_mem (s : List Char) :
    ∀ (fuel i : Nat), ∀ c ∈ chunksAux s (s.length / 1000 + 1) fuel i,
      c.length ≤ 1000 ∧ c ≠ [] := by
  intro fuel
  induction fuel with
  | zero =>
    intro i c hc
    simp [chunksAux] at hc
  | succ fuel ih =>
    intro i c hc
    have hm := Nat.div_add_mod s.length 1000
    have hlt : s.length % 1000 < 1000 := Nat.mod_lt _ (by norm_num)
    by_cases h1 : i < s.length / 1000 + 1
    · by_cases h2 : i < s.length / 1000 + 1 - 1
      · have hne : ¬ (i * 1000 = i * 1000 + 1000) := by omega
        simp only [chunksAux, if_pos h1, if_pos h2, if_neg hne, List.mem_cons] at hc
        rcases hc with hc | hc
        · subst hc
          constructor
          · simp only [List.length_take, List.length_drop]
            omega
          · have hlen : i * 1000 < s.length := by omega
            simp only [ne_eq, List.take_eq_nil_iff, List.drop_eq_nil_iff]
            push_neg
            omega
        · exact ih (i + 1) c hc
      · by_cases h3 : i * 1000 = i * 1000 + s.length % 1000
        · simp only [chunksAux, if_pos h1, if_neg h2, if_pos h3] at hc
          simp at hc
        · simp only [chunksAux, if_pos h1, if_neg h2, if_neg h3, List.mem_cons] at hc
          rcases hc with hc | hc
          · subst hc
            constructor
            · simp only [List.length_take, List.length_drop]
              omega
            · have hlen : i * 1000 < s.length := by omega
              simp only [ne_eq, List.take_eq_nil_iff, List.drop_eq_nil_iff]
              push_neg
              omega
          · exact ih (i + 1) c hc
    · simp [chunksAux, if_neg h1] at hc

/-- The accumulation loop of `sumMoodAnalysis` equals a left fold of the
accumulation step over the slices the loop produces. -/
theorem sumMoodAux_eq_foldl (analyze : List Char → SentimentScores) (s : List Char)
    (total : Nat) :
    ∀ (fuel i : Nat) (acc : SentimentScores),
      sumMoodAux analyze s total fuel i acc =
        (chunksAux s total fuel i).foldl (fun a c => addScores a (analyze c)) acc := by
  intro fuel
  induction fuel with
  | zero =>
    intro i acc
    simp [sumMoodAux, chunksAux]
  | succ fuel ih =>
    intro i acc
    by_cases h1 : i < total
    · simp only [sumMoodAux, chunksAux, if_pos h1]
      split
      · split
        · simp
        · rw [List.foldl_cons]
          exact ih _ _
      · split
        · simp
        · rw [List.foldl_cons]
          exact ih _ _
    · simp [sumMoodAux, chunksAux, if_neg h1]

/-- The spec's StatisticsAggregator, §4.3, over the ordered sequence of
per-chunk sentiment results: category-wise running sums (the code's
accumulation step folded over the sequence) together with the number of
summed results. -/
def aggregate (perChunkScores : List SentimentScores) : SentimentScores × Nat :=
  (perChunkScores.foldl addScores zeroScores, perChunkScores.length)

/-- The statistics component of `sumMoodAnalysis` is the aggregation of
the per-chunk analyses of the chunks split out of the stripped content. -/
theorem sumMoodAnalysis_fst (analyze : List Char → SentimentScores) (t : List Char) :
    (sumMoodAnalysis analyze t).1 = (aggregate ((chunks (stripImg t)).map analyze)).1 := by
  show sumMoodAux analyze (stripImg t) ((stripImg t).length / 1000 + 1)
      ((stripImg t).length / 1000 + 1) 0 zeroScores =
    (aggregate ((chunks (stripImg t)).map analyze)).1
  rw [sumMoodAux_eq_foldl]
  show _ = ((chunks (stripImg t)).map analyze).foldl addScores zeroScores
  unfold chunks
  rw [List.foldl_map]

/-- The denominator component of `sumMoodAnalysis` is
`Math.floor(plainContent.length / 1000) + 1`. -/
theorem sumMoodAnalysis_snd (analyze : List Char → SentimentScores) (t : List Char) :
    (sumMoodAnalysis analyze t).2 = (stripImg t).length / 1000 + 1 := rfl

instance : RightCommutative addScores :=
  ⟨by
    intro b a₁ a₂
    simp only [addScores, SentimentScores.mk.injEq]
    refine ⟨by ring, by ring, by ring⟩⟩

/-- Concatenation invariant: the chunks flatten back to the exact
content that was split. -/
theorem chunks_flatten (s : List Char) : (chunks s).flatten = s := by
  unfold chunks
  rw [chunksAux_flatten s _ 0 (by omega)]
  simp

/-- The number of chunks produced: `n / 1000` when `1000 ∣ n`, else
`n / 1000 + 1`. -/
theorem chunks_length (s : List Char) :
    (chunks s).length =
      if s.length % 1000 = 0 then s.length / 1000 else s.length / 1000 + 1 := by
  unfold chunks
  rw [chunksAux_length s _ 0 (by omega)]
  split <;> omega

/-- Every produced chunk is non-empty and no longer than 1000. -/
theorem chunks_mem (s : List Char) :
    ∀ c ∈ chunks s, c.length ≤ 1000 ∧ c ≠ [] := by
  intro c hc
  exact chunksAux_mem s _ 0 c hc

/-- The spec's tie-break rule, §4.4 step 1, stated in its own words: the
first category in the encounter order POSITIVE, NEGATIVE, NEUTRAL whose
sum equals the maximum of the three sums. -/
def specFirstMaxCategory (statistics : SentimentScores) : MoodType :=
  let m := max statistics.positive (max statistics.negative statistics.neutral)
  if statistics.positive = m then MoodType.POSITIVE
  else if statistics.negative = m then MoodType.NEGATIVE
  else MoodType.NEUTRAL

/-- Evaluation helper: the full pipeline on empty content with the
all-zero analyzer classifies as GOOD. -/
theorem judgeOverallMood_zero_nil :
    judgeOverallMood (fun _ => zeroScores) [] = MoodDegree.GOOD := by
  have hs : sumMoodAnalysis (fun _ => zeroScores) [] = (zeroScores, 1) := rfl
  simp only [judgeOverallMood, hs]
  norm_num [judgeFromStats, maxEntry, zeroScores]

/-! ## Claims -/

/-- C1, counterexample: on empty content (zero chunks analyzed) the code
does not return SO_SO — all sums are zero, the denominator is
`floor(0/1000) + 1 = 1`, the tie at 0 is won by POSITIVE, the ratio is
`0 ≤ 50`, and the classification is GOOD. -/
theorem C1_counterexample :
    judgeOverallMood (fun _ => zeroScores) [] = MoodDegree.GOOD ∧
      judgeOverallMood (fun _ => zeroScores) [] ≠ MoodDegree.SO_SO := by
  exact ⟨judgeOverallMood_zero_nil, by rw [judgeOverallMood_zero_nil]; decide⟩

/-- C1 (amended): for every input whose cleaned content is empty, zero
chunks are analyzed, the statistics stay at zero, the denominator is 1
(so no division by zero occurs and no error is raised), and the
classification returns GOOD — POSITIVE wins the three-way tie at 0 and
the ratio 0 is at most 50. There is no special case returning SO_SO. -/
theorem C1_empty_content_good (analyze : List Char → SentimentScores) (t : List Char)
    (h : stripImg t = []) :
    judgeOverallMood analyze t = MoodDegree.GOOD ∧
      (sumMoodAnalysis analyze t).1 = zeroScores ∧
      (sumMoodAnalysis analyze t).2 = 1 := by
  have hs : sumMoodAnalysis analyze t = (zeroScores, 1) := by
    simp only [sumMoodAnalysis, h]
    rfl
  have hj : judgeOverallMood analyze t = judgeFromStats zeroScores 1 := by
    simp only [judgeOverallMood, hs]
  rw [hj, hs]
  refine ⟨by norm_num [judgeFromStats, maxEntry, zeroScores], rfl, rfl⟩

/-- C1 witness: a concrete input that is pure image markup cleans to the
empty string and classifies as GOOD. -/
theorem C1_witness :
    judgeOverallMood (fun _ => zeroScores) ("<img src=x>".data) = MoodDegree.GOOD :=
  (C1_empty_content_good (fun _ => zeroScores) ("<img src=x>".data) (by decide)).1

/-- C2, counterexample: for empty cleaned content the recorded
denominator is 1, while zero chunks are submitted for analysis — the
denominator is neither the number of analyzed chunks nor 0. -/
theorem C2_counterexample :
    (sumMoodAnalysis (fun _ => zeroScores) []).2 = 1 ∧
      (chunks (stripImg [])).length = 0 := by
  constructor <;> decide

/-- C2 (amended): the denominator recorded by `sumMoodAnalysis` is
always `floor(n / 1000) + 1` for cleaned length `n`; it equals the
number of chunks actually submitted for analysis when `n mod 1000 ≠ 0`,
and exceeds it by one when `n mod 1000 = 0` — in particular it is
`n / 1000 + 1`, not `n / 1000`, for positive exact multiples of 1000,
and 1, not 0, for `n = 0`. -/
theorem C2_denominator (analyze : List Char → SentimentScores) (t : List Char) :
    (sumMoodAnalysis analyze t).2 = (stripImg t).length / 1000 + 1 ∧
      ((stripImg t).length % 1000 ≠ 0 →
        (sumMoodAnalysis analyze t).2 = (chunks (stripImg t)).length) ∧
      ((stripImg t).length % 1000 = 0 →
        (sumMoodAnalysis analyze t).2 = (chunks (stripImg t)).length + 1) := by
  have hc := chunks_length (stripImg t)
  have hs := sumMoodAnalysis_snd analyze t
  refine ⟨hs, fun h => ?_, fun h => ?_⟩ <;> rw [hs, hc] <;> simp [h]

/-- C2 witness: for a 2-character content the denominator 1 equals the
single analyzed chunk. -/
theorem C2_witness :
    (sumMoodAnalysis (fun _ => zeroScores) ("ab".data)).2 =
      (chunks (stripImg ("ab".data))).length :=
  (C2_denominator (fun _ => zeroScores) ("ab".data)).2.1 (by decide)

/-- C3: the classification table of `judgeOverallMood`: with a positive
chunk count, a POSITIVE winner yields SO_GOOD above ratio 50 and GOOD at
or below it, a NEGATIVE winner yields SO_BAD above 50 and BAD at or
below it, and a NEUTRAL winner yields SO_SO regardless of the ratio. -/
theorem C3_classification_table (stats : SentimentScores) (tn : Nat) (htn : 0 < tn) :
    ((maxEntry stats).1 = MoodType.POSITIVE →
      ((maxEntry stats).2 / (tn : ℚ) > 50 → judgeFromStats stats tn = MoodDegree.SO_GOOD) ∧
      ((maxEntry stats).2 / (tn : ℚ) ≤ 50 → judgeFromStats stats tn = MoodDegree.GOOD)) ∧
    ((maxEntry stats).1 = MoodType.NEGATIVE →
      ((maxEntry stats).2 / (tn : ℚ) > 50 → judgeFromStats stats tn = MoodDegree.SO_BAD) ∧
      ((maxEntry stats).2 / (tn : ℚ) ≤ 50 → judgeFromStats stats tn = MoodDegree.BAD)) ∧
    ((maxEntry stats).1 = MoodType.NEUTRAL → judgeFromStats stats tn = MoodDegree.SO_SO) := by
  refine ⟨fun h => ⟨fun hr => ?_, fun hr => ?_⟩,
          fun h => ⟨fun hr => ?_, fun hr => ?_⟩,
          fun h => ?_⟩ <;>
    simp only [judgeFromStats, h] <;>
    first
      | rw [if_pos hr]
      | rw [if_neg (not_lt.2 hr)]

/-- C3 witness: `{POSITIVE: 60, NEGATIVE: 10, NEUTRAL: 5}` with one
chunk classifies as SO_GOOD. -/
theorem C3_witness :
    judgeFromStats ⟨60, 10, 5⟩ 1 = MoodDegree.SO_GOOD :=
  ((C3_classification_table ⟨60, 10, 5⟩ 1 (by decide)).1 (by decide)).1 (by norm_num [maxEntry])

/-- C4: the max-reduction of `judgeOverallMood` selects exactly the
first-encountered maximal category in the insertion order POSITIVE,
NEGATIVE, NEUTRAL (so ties go to the earlier category); in particular a
three-way tie `{10, 10, 10}` with one chunk classifies as GOOD. -/
theorem C4_tie_break :
    (∀ stats : SentimentScores, (maxEntry stats).1 = specFirstMaxCategory stats) ∧
      judgeFromStats ⟨10, 10, 10⟩ 1 = MoodDegree.GOOD := by
  constructor
  · intro stats
    obtain ⟨p, n, u⟩ := stats
    simp only [maxEntry, specFirstMaxCategory]
    by_cases h1 : n > p
    · rw [if_pos h1]
      dsimp only
      by_cases h2 : u > n
      · rw [if_pos h2]
        dsimp only
        have hm1 : max n u = u := max_eq_right h2.le
        have hm2 : max p u = u := max_eq_right (lt_trans h1 h2).le
        rw [hm1, hm2, if_neg (ne_of_lt (lt_trans h1 h2)), if_neg (ne_of_lt h2)]
      · rw [if_neg h2]
        dsimp only
        have hm1 : max n u = n := max_eq_left (not_lt.1 h2)
        have hm2 : max p n = n := max_eq_right h1.le
        rw [hm1, hm2, if_neg (ne_of_lt h1), if_pos rfl]
    · rw [if_neg h1]
      dsimp only
      by_cases h3 : u > p
      · rw [if_pos h3]
        dsimp only
        have hm1 : max n u = u := max_eq_right (lt_of_le_of_lt (not_lt.1 h1) h3).le
        have hm2 : max p u = u := max_eq_right h3.le
        rw [hm1, hm2, if_neg (ne_of_lt h3),
          if_neg (ne_of_lt (lt_of_le_of_lt (not_lt.1 h1) h3))]
      · rw [if_neg h3]
        dsimp only
        have hm : max p (max n u) = p :=
          max_eq_left (max_le (not_lt.1 h1) (not_lt.1 h3))
        rw [hm, if_pos rfl]
  · norm_num [judgeFromStats, maxEntry]

/-- C5: the number of chunks actually produced and analyzed is
`ceil(n / 1000)` when `n mod 1000 ≠ 0`, `n / 1000` when `n` is a
positive multiple of 1000, and 0 when `n = 0`, for `n` the cleaned
length. -/
theorem C5_chunk_count (t : List Char) :
    ((stripImg t).length % 1000 ≠ 0 →
      (chunks (stripImg t)).length = ((stripImg t).length + 999) / 1000) ∧
    ((stripImg t).length % 1000 = 0 ∧ 0 < (stripImg t).length →
      (chunks (stripImg t)).length = (stripImg t).length / 1000) ∧
    ((stripImg t).length = 0 → (chunks (stripImg t)).length = 0) := by
  have hc := chunks_length (stripImg t)
  refine ⟨fun h => ?_, fun h => ?_, fun h => ?_⟩
  · rw [hc, if_neg h]
    omega
  · rw [hc, if_pos h.1]
  · have h0 : (stripImg t).length % 1000 = 0 := by omega
    rw [hc, if_pos h0]
    omega

/-- C5 witness: a 2-character content yields `ceil(2 / 1000) = 1`
chunk. -/
theorem C5_witness :
    (chunks (stripImg ("ab".data))).length = ((stripImg ("ab".data)).length + 999) / 1000 :=
  (C5_chunk_count ("ab".data)).1 (by decide)

/-- C6: concatenating the produced chunks in order reproduces the
markup-stripped content exactly, every chunk is at most 1000 characters
long, and no chunk is empty. -/
theorem C6_concat_chunks (t : List Char) :
    (chunks (stripImg t)).flatten = stripImg t ∧
      ∀ c ∈ chunks (stripImg t), c.length ≤ 1000 ∧ c ≠ [] :=
  ⟨chunks_flatten (stripImg t), chunks_mem (stripImg t)⟩

/-- C6 witness: the content `<img a>hi` cleans to `hi`, whose single
chunk `hi` concatenates back to it, has length at most 1000, and is
non-empty. -/
theorem C6_witness :
    (chunks (stripImg ("<img a>hi".data))).flatten = stripImg ("<img a>hi".data) ∧
      (['h', 'i'] : List Char).length ≤ 1000 ∧ (['h', 'i'] : List Char) ≠ [] :=
  ⟨(C6_concat_chunks ("<img a>hi".data)).1,
   (C6_concat_chunks ("<img a>hi".data)).2 ['h', 'i'] (by decide)⟩

/-- C7: aggregation is order-independent — permuting the sequence of
per-chunk sentiment results changes neither the per-category sums nor
the chunk count. -/
theorem C7_aggregate_perm (l₁ l₂ : List SentimentScores) (p : l₁.Perm l₂) :
    aggregate l₁ = aggregate l₂ := by
  simp only [aggregate]
  rw [p.foldl_eq, p.length_eq]

/-- C7 witness: swapping two concrete per-chunk results leaves the
aggregate unchanged. -/
theorem C7_witness :
    aggregate [⟨1, 2, 3⟩, ⟨4, 5, 6⟩] = aggregate [⟨4, 5, 6⟩, ⟨1, 2, 3⟩] :=
  C7_aggregate_perm _ _ (List.Perm.swap _ _ _)

/-- C8, counterexample: a successfully parsed summarization response
with no `summary` field does not fail — `getSummary` returns the absent
value and `saveDiary` persists the diary with an undefined summary. -/
theorem C8_counterexample :
    getSummary (FetchOutcome.resolved true ⟨none⟩) = Except.ok none ∧
      saveDiaryDerived (FetchOutcome.resolved true ⟨none⟩) (fun _ => zeroScores) [] =
        Except.ok ⟨none, MoodDegree.GOOD⟩ := by
  refine ⟨rfl, ?_⟩
  simp only [saveDiaryDerived, getSummary, judgeOverallMood_zero_nil]

/-- C8 (amended): only a rejected `fetch`/`response.json()` promise
aborts the save; any parsed response — whatever its HTTP status and even
with the `summary` field missing — is accepted, and the diary is saved
with `body.summary` as-is (possibly undefined). The missing-field case
is not detected and raises no error. -/
theorem C8_summary_propagation (outcome : FetchOutcome)
    (analyze : List Char → SentimentScores) (content : List Char) :
    (outcome = FetchOutcome.reject →
      saveDiaryDerived outcome analyze content = Except.error ()) ∧
    (∀ ok body, outcome = FetchOutcome.resolved ok body →
      saveDiaryDerived outcome analyze content =
        Except.ok ⟨body.summary, judgeOverallMood analyze content⟩) := by
  refine ⟨fun h => ?_, fun ok body h => ?_⟩ <;> subst h <;> rfl

/-- C8 witness: a rejected fetch aborts the save with an error. -/
theorem C8_witness :
    saveDiaryDerived FetchOutcome.reject (fun _ => zeroScores) [] = Except.error () :=
  (C8_summary_propagation FetchOutcome.reject (fun _ => zeroScores) []).1 rfl

/-- C9: the denominator returned by `sumMoodAnalysis` is
`floor(n / 1000) + 1` for cleaned length `n`; it is at least 1 and
non-zero as a rational, so the division `figure = sum / totalNumber` in
`judgeOverallMood` never divides by zero, even for empty content. -/
theorem C9_denominator_positive (analyze : List Char → SentimentScores) (t : List Char) :
    (sumMoodAnalysis analyze t).2 = (stripImg t).length / 1000 + 1 ∧
      0 < (sumMoodAnalysis analyze t).2 ∧
      ((sumMoodAnalysis analyze t).2 : ℚ) ≠ 0 := by
  have hs := sumMoodAnalysis_snd analyze t
  refine ⟨hs, by rw [hs]; omega, ?_⟩
  rw [hs]
  have h : (stripImg t).length / 1000 + 1 ≠ 0 := by omega
  exact_mod_cast h

/-- C10, counterexample: an update DTO with every field absent still
overwrites the diary's tags — `updateDiary` recomputes `tags` from
`dto.tagNames` unconditionally, so a falsy DTO field changes a stored
field. -/
theorem C10_counterexample :
    (updateDiary (fun _ => []) (fun _ _ => none) (fun _ => MoodDegree.SO_SO)
        ⟨['t'], ['c'], ['e'], ['s'], some ['x'], MoodDegree.GOOD, [['a']]⟩
        ⟨none, none, none, none, none⟩).tags ≠
      (⟨['t'], ['c'], ['e'], ['s'], some ['x'], MoodDegree.GOOD, [['a']]⟩ : Diary).tags ∧
      (⟨none, none, none, none, none⟩ : UpdateDiaryDto).tagNames = none := by
  constructor <;> decide

/-- C10 (amended): when the DTO's content field is absent or falsy, the
stored summary and mood are unchanged and the result does not depend on
the summary or sentiment collaborators (no external call is made); the
scalar fields title, content, emotion and status are overwritten only
when truthy in the DTO; but tags is unconditionally recomputed from
`dto.tagNames`, even when `tagNames` is absent. -/
theorem C10_update_frame (mt : Option (List (List Char)) → List (List Char))
    (g : List Char → List Char → Option (List Char)) (j : List Char → MoodDegree)
    (ex : Diary) (dto : UpdateDiaryDto) :
    (truthy dto.content = false →
      (updateDiary mt g j ex dto).summary = ex.summary ∧
      (updateDiary mt g j ex dto).mood = ex.mood ∧
      ∀ g2 j2, updateDiary mt g2 j2 ex dto = updateDiary mt g j ex dto) ∧
    (truthy dto.title = false → (updateDiary mt g j ex dto).title = ex.title) ∧
    (truthy dto.content = false → (updateDiary mt g j ex dto).content = ex.content) ∧
    (truthy dto.emotion = false → (updateDiary mt g j ex dto).emotion = ex.emotion) ∧
    (truthy dto.status = false → (updateDiary mt g j ex dto).status = ex.status) ∧
    (updateDiary mt g j ex dto).tags = mt dto.tagNames := by
  refine ⟨fun h => ⟨?_, ?_, fun g2 j2 => ?_⟩, fun h => ?_, fun h => ?_, fun h => ?_,
          fun h => ?_, ?_⟩ <;>
    simp only [updateDiary] <;>
    split_ifs <;>
    simp_all

/-- C10 witness: with an all-absent DTO the stored summary is
unchanged. -/
theorem C10_witness :
    (updateDiary (fun _ => []) (fun _ _ => none) (fun _ => MoodDegree.SO_SO)
        ⟨['t'], ['c'], ['e'], ['s'], some ['x'], MoodDegree.GOOD, [['a']]⟩
        ⟨none, none, none, none, none⟩).summary =
      (⟨['t'], ['c'], ['e'], ['s'], some ['x'], MoodDegree.GOOD, [['a']]⟩ : Diary).summary :=
  ((C10_update_frame (fun _ => []) (fun _ _ => none) (fun _ => MoodDegree.SO_SO)
      ⟨['t'], ['c'], ['e'], ['s'], some ['x'], MoodDegree.GOOD, [['a']]⟩
      ⟨none, none, none, none, none⟩).1 rfl).1

end Dandi
